import Mathlib

set_option maxHeartbeats 1000000

/-!
Shallow embedding of `rotate_keys.py`, a credential-rotation job: it resolves
an IAM identity, checks the existing access-key count, mints a new key pair,
verifies it by re-listing, appends the two fields to the job output file,
propagates the sealed fields to each GitHub target, and finally deletes the
single pre-existing key when there was one.

External calls (STS, IAM, GitHub HTTP, NaCl sealing) are modelled by a `World`
oracle supplying the responses; a run returns an `Outcome` together with the
ordered trace of externally visible events (API calls, stdout lines, output
file appends).
-/

/-- One element of the `AccessKeyMetadata` list returned by
`iam.list_access_keys`. -/
structure AccessKeyMeta where
  AccessKeyId : String
deriving Repr, DecidableEq

/-- Response to the GitHub public-key GET: HTTP status, body text, and the
`key` / `key_id` fields of the parsed JSON body. -/
structure GetResp where
  status : Nat
  text : String
  key : String
  key_id : String
deriving Repr, DecidableEq

/-- Oracle for every external interaction of the script.  The two
`list_access_keys` calls are answered separately (`listKeysPre` for the
precondition check, `listKeysPost` for the read-after-write re-list), since
the provider may answer each call differently. -/
structure World where
  callerArn : String
  listKeysPre : String → List AccessKeyMeta
  listKeysPost : String → List AccessKeyMeta
  createKey : String → String × String
  deleteKeyStatus : String → String → Nat
  getResp : String → GetResp
  putResp : String → String → String → String → Nat × String
  sealBox : String → String → String

/-- The environment variables the script reads.  `os.environ[k]` accesses are
required fields; `os.environ.get(k)` / `os.environ.get(k, d)` accesses are
`Option` fields. -/
structure Env where
  IAM_USERNAME : Option String
  PERSONAL_ACCESS_TOKEN : String
  OWNER_REPOSITORY : String
  GITHUB_ENVIRONMENT : Option String
  GITHUB_ACCESS_KEY_NAME : Option String
  GITHUB_SECRET_KEY_NAME : Option String
  GITHUB_OUTPUT : String

/-- Externally visible events of a run, in program order. -/
inductive Event where
  | stsGetCallerIdentity : Event
  | listAccessKeys (user : String) : Event
  | createAccessKey (user : String) : Event
  | deleteAccessKey (user : String) (keyId : String) : Event
  | httpGet (url : String) : Event
  | httpPut (url : String) (encryptedValue : String) (keyId : String)
      (visibility : String) : Event
  | printOut (line : String) : Event
  | writeFile (path : String) (line : String) : Event
deriving Repr, DecidableEq

/-- The two `raise Exception(...)` sites of the script; each exception message
carries the HTTP status code, the response body, the target string and the
GitHub token (the f-string at lines 146-150 and 187-191). -/
inductive Err where
  | pubKeyFailed (status : Nat) (body : String) (ownerRepo : String)
      (token : String) : Err
  | uploadFailed (status : Nat) (body : String) (ownerRepo : String)
      (token : String) : Err
deriving Repr, DecidableEq

/-- How the process ends: `sys.exit(code)`, an uncaught `Exception`, or an
uncaught `IndexError` from a list subscript. -/
inductive Outcome where
  | exited (code : Nat) : Outcome
  | raised (e : Err) : Outcome
  | crashed (msg : String) : Outcome
deriving Repr, DecidableEq

/-- `os.environ.get('GITHUB_ACCESS_KEY_NAME', 'access_key_id')` (line 9). -/
def accessKeyName (env : Env) : String :=
  env.GITHUB_ACCESS_KEY_NAME.getD "access_key_id"

/-- `os.environ.get('GITHUB_SECRET_KEY_NAME', 'secret_key_id')` (line 10). -/
def secretKeyName (env : Env) : String :=
  env.GITHUB_SECRET_KEY_NAME.getD "secret_key_id"

/-- Single-character string split, the semantics of Python `s.split(c)` for a
one-character separator: always returns at least one piece, empty pieces
kept. -/
def splitOnChar (c : Char) : List Char → List (List Char)
  | [] => [[]]
  | x :: xs =>
    match splitOnChar c xs with
    | [] => if x = c then [[], []] else [[x]]
    | h :: t => if x = c then [] :: h :: t else (x :: h) :: t

/-- Python `s.split(c)` for a one-character separator, on `String`. -/
def pySplit (s : String) (c : Char) : List String :=
  (splitOnChar c s.data).map fun l => String.mk l

/-- Drop leading whitespace characters. -/
def dropWhile_ws : List Char → List Char
  | [] => []
  | c :: cs => if c.isWhitespace then dropWhile_ws cs else c :: cs

/-- Python `s.strip()`: remove leading and trailing whitespace. -/
def pyStrip (s : String) : String :=
  String.mk (dropWhile_ws (dropWhile_ws s.data.reverse).reverse)

/-- Python `c in s` for a one-character needle. -/
def containsChar (s : String) (c : Char) : Bool :=
  s.data.contains c

/-- Python `s.split("/")[-1]`. -/
def lastSegment (s : String) : String :=
  (pySplit s '/').getLastD ""

/-- `who_am_i` (lines 73-85): the name returned by the STS introspection call,
the final `/`-segment of the caller ARN. -/
def who_am_i (w : World) : String :=
  lastSegment w.callerArn

/-- The username the run operates on.  NOTE: in the source this is
`os.environ.get('IAM_USERNAME', who_am_i())` (line 34); Python evaluates the
default argument `who_am_i()` eagerly, so the STS call is issued on every run
even when `IAM_USERNAME` is set — only the *value* selection is modelled
here, the unconditional STS event is emitted by `main_function`. -/
def resolvedUser (w : World) (env : Env) : String :=
  env.IAM_USERNAME.getD (who_am_i w)

/-- `[x.strip() for x in owner_repository.split(',')]` (line 54). -/
def parseTargets (s : String) : List String :=
  (pySplit s ',').map pyStrip

/-- The walrus test `if environment_name := os.environ.get('GITHUB_ENVIRONMENT')`
(lines 137, 170, 195): the branch is taken only when the variable is set to a
truthy (non-empty) string. -/
def envScope (env : Env) : Option String :=
  match env.GITHUB_ENVIRONMENT with
  | some s => if s = "" then none else some s
  | none => none

/-- `endpoint_path = 'repos' if "/" in owner_repo else 'orgs'`
(lines 135, 167). -/
def endpoint_path (ownerRepo : String) : String :=
  if containsChar ownerRepo '/' then "repos" else "orgs"

/-- The URL of the public-key GET (lines 136-138).  When an environment scope
is configured the endpoint is rewritten to
`.../{target}/environments/{env}/secrets/public-key` — note that the
rewritten form has no `actions` segment. -/
def pubKeyEndpoint (env : Env) (ownerRepo : String) : String :=
  match envScope env with
  | some e =>
      "https://api.github.com/" ++ endpoint_path ownerRepo ++ "/" ++ ownerRepo
        ++ "/environments/" ++ e ++ "/secrets/public-key"
  | none =>
      "https://api.github.com/" ++ endpoint_path ownerRepo ++ "/" ++ ownerRepo
        ++ "/actions/secrets/public-key"

/-- The URL of the secret upload PUT (lines 168-171); same environment-scope
rewriting as `pubKeyEndpoint`. -/
def secretEndpoint (env : Env) (ownerRepo : String) (keyName : String) : String :=
  match envScope env with
  | some e =>
      "https://api.github.com/" ++ endpoint_path ownerRepo ++ "/" ++ ownerRepo
        ++ "/environments/" ++ e ++ "/secrets/" ++ keyName
  | none =>
      "https://api.github.com/" ++ endpoint_path ownerRepo ++ "/" ++ ownerRepo
        ++ "/actions/secrets/" ++ keyName

/-- The confirmation line printed after a successful upload (lines 195-198). -/
def updatedMsg (env : Env) (keyName ownerRepo : String) : String :=
  match envScope env with
  | some e => "Updated: " ++ keyName ++ " in " ++ ownerRepo ++ " for " ++ e
  | none => "Updated: " ++ keyName ++ " in " ++ ownerRepo

/-- `encrypt` (lines 123-128): NaCl sealed-box encryption, treated as the
oracle function `seal` of the world. -/
def encrypt (w : World) (public_key secret_value : String) : String :=
  w.sealBox public_key secret_value

/-- `get_pub_key` (lines 131-161): GET the endpoint; any status other than
`requests.codes.ok` (200) raises an exception carrying status, body, target
and token; otherwise return the `key` and `key_id` fields. -/
def get_pub_key (w : World) (env : Env) (owner_repo github_token : String) :
    Except Err (String × String) × List Event :=
  let endpoint := pubKeyEndpoint env owner_repo
  let r := w.getResp endpoint
  if r.status = 200 then
    (Except.ok (r.key, r.key_id), [Event.httpGet endpoint])
  else
    (Except.error (Err.pubKeyFailed r.status r.text owner_repo github_token),
      [Event.httpGet endpoint])

/-- `upload_secret` (lines 164-198): PUT the sealed value with its key id and
`visibility: private`; statuses outside `good_status_codes = [204, 201]`
raise an exception carrying status, body, target and token; on success a
confirmation line is printed. -/
def upload_secret (w : World) (env : Env)
    (owner_repo key_name encrypted_value pub_key_id github_token : String) :
    Option Err × List Event :=
  let endpoint := secretEndpoint env owner_repo key_name
  let r := w.putResp endpoint encrypted_value pub_key_id "private"
  if r.1 ∈ [204, 201] then
    (none, [Event.httpPut endpoint encrypted_value pub_key_id "private",
            Event.printOut (updatedMsg env key_name owner_repo)])
  else
    (some (Err.uploadFailed r.1 r.2 owner_repo github_token),
      [Event.httpPut endpoint encrypted_value pub_key_id "private"])

/-- The body of the propagation loop (lines 54-64) for one target: fetch the
public key, seal both fields with it, upload the access-key secret then the
secret-key secret. -/
def processTarget (w : World) (env : Env)
    (github_token new_access_key new_secret_key repos : String) :
    Option Err × List Event :=
  let g := get_pub_key w env repos github_token
  match g.1 with
  | Except.error e => (some e, g.2)
  | Except.ok pk =>
    let public_key := pk.1
    let pub_key_id := pk.2
    let encrypted_access_key := encrypt w public_key new_access_key
    let encrypted_secret_key := encrypt w public_key new_secret_key
    let r1 := upload_secret w env repos (accessKeyName env)
        encrypted_access_key pub_key_id github_token
    match r1.1 with
    | some e => (some e, g.2 ++ r1.2)
    | none =>
      let r2 := upload_secret w env repos (secretKeyName env)
          encrypted_secret_key pub_key_id github_token
      (r2.1, g.2 ++ r1.2 ++ r2.2)

/-- The propagation loop (lines 54-64) over the target list, in order; an
uncaught exception aborts the remaining targets. -/
def propagate (w : World) (env : Env)
    (github_token new_access_key new_secret_key : String) :
    List String → Option Err × List Event
  | [] => (none, [])
  | t :: ts =>
    let r1 := processTarget w env github_token new_access_key new_secret_key t
    match r1.1 with
    | some e => (some e, r1.2)
    | none =>
      let r := propagate w env github_token new_access_key new_secret_key ts
      (r.1, r1.2 ++ r.2)

/-- `create_new_keys` (lines 88-107): create the pair, re-list the keys, and
fail (`sys.exit(1)`, modelled as `none`) when the new access id is absent
from the re-list. -/
def create_new_keys (w : World) (iam_username : String) :
    Option (String × String) × List Event :=
  let created := w.createKey iam_username
  let new_access_key := created.1
  let new_secret_key := created.2
  let access_keys := (w.listKeysPost iam_username).map AccessKeyMeta.AccessKeyId
  let evs := [Event.createAccessKey iam_username,
              Event.listAccessKeys iam_username]
  if new_access_key ∈ access_keys then
    (some (new_access_key, new_secret_key),
      evs ++ [Event.printOut "new keys generated, proceeding"])
  else
    (none, evs ++ [Event.printOut "new keys failed to generate."])

/-- `delete_old_keys` (lines 110-119): delete the key and report `false`
(which `main_function` turns into `sys.exit(1)`) when the response status is
not 200. -/
def delete_old_keys (w : World) (iam_username current_access_id : String) :
    Bool × List Event :=
  let st := w.deleteKeyStatus iam_username current_access_id
  if st = 200 then
    (true, [Event.deleteAccessKey iam_username current_access_id])
  else
    (false, [Event.deleteAccessKey iam_username current_access_id,
             Event.printOut "deletion of original key failed"])

/-- The precondition diagnostic (line 46). -/
def validatedMsg (n : Nat) : String :=
  "Validated <2 keys exist (current count: " ++ toString n ++ "), proceeding."

/-- `main_function` (lines 21-70).  The STS introspection event is emitted
unconditionally because `os.environ.get('IAM_USERNAME', who_am_i())`
evaluates its default argument eagerly.  The `AccessKeyMetadata[0]` subscript
of line 68 is modelled by a `match` whose empty case is an uncaught
`IndexError`. -/
def main_function (w : World) (env : Env) : Outcome × List Event :=
  let iam_username := resolvedUser w env
  let github_token := env.PERSONAL_ACCESS_TOKEN
  let evs0 := [Event.stsGetCallerIdentity, Event.listAccessKeys iam_username]
  let list_ret := w.listKeysPre iam_username
  let starting_num_keys := list_ret.length
  if 2 ≤ starting_num_keys then
    (Outcome.exited 1, evs0 ++
      [Event.printOut "There are already 2 keys for this user. Cannot rotate tokens."])
  else
    let evs1 := evs0 ++ [Event.printOut (validatedMsg starting_num_keys)]
    match create_new_keys w iam_username with
    | (none, cevs) => (Outcome.exited 1, evs1 ++ cevs)
    | (some created, cevs) =>
      let new_access_key := created.1
      let new_secret_key := created.2
      let evs2 := evs1 ++ cevs ++
        [Event.writeFile env.GITHUB_OUTPUT
           (accessKeyName env ++ "=" ++ new_access_key),
         Event.writeFile env.GITHUB_OUTPUT
           (secretKeyName env ++ "=" ++ new_secret_key)]
      let pr := propagate w env github_token new_access_key new_secret_key
          (parseTargets env.OWNER_REPOSITORY)
      match pr.1 with
      | some e => (Outcome.raised e, evs2 ++ pr.2)
      | none =>
        let evs3 := evs2 ++ pr.2
        if starting_num_keys = 1 then
          match list_ret with
          | [] => (Outcome.crashed "IndexError", evs3)
          | m :: _ =>
            let d := delete_old_keys w iam_username m.AccessKeyId
            if d.1 then (Outcome.exited 0, evs3 ++ d.2)
            else (Outcome.exited 1, evs3 ++ d.2)
        else
          (Outcome.exited 0, evs3)

/-- The event list `evs` contains an upload of secret `name` to target `t`. -/
def receivedUpload (env : Env) (t name : String) (evs : List Event) : Prop :=
  ∃ v k vis, Event.httpPut (secretEndpoint env t name) v k vis ∈ evs

/-- Recognizer for credential-deletion events. -/
def isDeleteEv : Event → Bool
  | Event.deleteAccessKey _ _ => true
  | _ => false

/-- Recognizer for HTTP GET (public-key fetch) events. -/
def isGetEv : Event → Bool
  | Event.httpGet _ => true
  | _ => false

/-- The fixed forms of every line the job ever prints to standard output:
constants, the precondition diagnostic parameterized by the pre-existing key
count, and the upload confirmations parameterized by the configured secret
names and the target.  None of these forms is built from the minted
secret value. -/
def benignStdout (env : Env) (n : Nat) (s : String) : Prop :=
  s = "There are already 2 keys for this user. Cannot rotate tokens." ∨
  s = validatedMsg n ∨
  s = "new keys failed to generate." ∨
  s = "new keys generated, proceeding" ∨
  s = "deletion of original key failed" ∨
  ∃ t, t ∈ parseTargets env.OWNER_REPOSITORY ∧
    (s = updatedMsg env (accessKeyName env) t ∨
     s = updatedMsg env (secretKeyName env) t)

/-- Modelled from the spec, for the refinement comparison of the
environment-scoped endpoint: section 6 words the interface as
`GET https://api.github.com/.../{target}/environments/{env}/actions/secrets/public-key`,
the environment segment inserted before the `/actions/secrets` suffix. -/
def specEnvPubKeyEndpoint (ownerRepo e : String) : String :=
  "https://api.github.com/" ++ endpoint_path ownerRepo ++ "/" ++ ownerRepo
    ++ "/environments/" ++ e ++ "/actions/secrets/public-key"

/-- A world where every provider call succeeds: one pre-existing key
`AKIA_OLD`, minted pair `(AKIA_NEW, TOPSECRETVALUE)` confirmed by the
re-list, all HTTP statuses successful. -/
def wBase : World := {
  callerArn := "arn:aws:iam::123456789012:user/svc-bot"
  listKeysPre := fun _ => [⟨"AKIA_OLD"⟩]
  listKeysPost := fun _ => [⟨"AKIA_OLD"⟩, ⟨"AKIA_NEW"⟩]
  createKey := fun _ => ("AKIA_NEW", "TOPSECRETVALUE")
  deleteKeyStatus := fun _ _ => 200
  getResp := fun _ => ⟨200, "", "PUBKEY", "KID1"⟩
  putResp := fun _ _ _ _ => (204, "")
  sealBox := fun pk v => pk ++ ":" ++ v
}

/-- A baseline environment: no overrides, one repository target. -/
def envBase : Env := {
  IAM_USERNAME := none
  PERSONAL_ACCESS_TOKEN := "ghp_tok"
  OWNER_REPOSITORY := "o/r"
  GITHUB_ENVIRONMENT := none
  GITHUB_ACCESS_KEY_NAME := none
  GITHUB_SECRET_KEY_NAME := none
  GITHUB_OUTPUT := "out.txt"
}

/-- A world whose identity already holds two credentials. -/
def wGuard : World :=
  { wBase with listKeysPre := fun _ => [⟨"AKIA_A"⟩, ⟨"AKIA_B"⟩] }

/-- A world whose read-after-write re-list does not contain the new key. -/
def wRaw : World :=
  { wBase with listKeysPost := fun _ => [⟨"AKIA_OLD"⟩] }

/-- An environment with three propagation targets. -/
def envMulti : Env := { envBase with OWNER_REPOSITORY := "a/b,c/d,e/f" }

/-- A world where the public-key fetch for target `c/d` returns 404 and
every other call succeeds. -/
def wFail : World :=
  { wBase with getResp := fun ep =>
      if ep = "https://api.github.com/repos/c/d/actions/secrets/public-key"
      then ⟨404, "not found", "", ""⟩
      else ⟨200, "", "PUBKEY", "KID1"⟩ }

/-- An environment with a deployment-environment scope configured. -/
def envProd : Env := { envBase with GITHUB_ENVIRONMENT := some "prod" }

/-- An environment with an explicit identity override. -/
def envOv : Env := { envBase with IAM_USERNAME := some "svc-bot" }

/-- A world whose caller ARN names a different principal than the override
of `envOv`. -/
def wOv : World :=
  { wBase with callerArn := "arn:aws:iam::123456789012:user/other-user" }

/-- A world where the delete call answers 500. -/
def wDelFail : World := { wBase with deleteKeyStatus := fun _ _ => 500 }

/-! ## Structural lemmas about the propagation phase -/

/-- Full case analysis of one iteration of the propagation loop: the result
and trace of `processTarget` as a function of the oracle responses. -/
theorem processTarget_cases (w : World) (env : Env) (tok ak sk t : String) :
    processTarget w env tok ak sk t =
      (let ep := pubKeyEndpoint env t
       let r := w.getResp ep
       let eA := w.sealBox r.key ak
       let eS := w.sealBox r.key sk
       let epA := secretEndpoint env t (accessKeyName env)
       let epS := secretEndpoint env t (secretKeyName env)
       let pA := w.putResp epA eA r.key_id "private"
       let pS := w.putResp epS eS r.key_id "private"
       if r.status = 200 then
         if pA.1 ∈ [204, 201] then
           if pS.1 ∈ [204, 201] then
             (none,
              [Event.httpGet ep, Event.httpPut epA eA r.key_id "private",
               Event.printOut (updatedMsg env (accessKeyName env) t),
               Event.httpPut epS eS r.key_id "private",
               Event.printOut (updatedMsg env (secretKeyName env) t)])
           else
             (some (Err.uploadFailed pS.1 pS.2 t tok),
              [Event.httpGet ep, Event.httpPut epA eA r.key_id "private",
               Event.printOut (updatedMsg env (accessKeyName env) t),
               Event.httpPut epS eS r.key_id "private"])
         else
           (some (Err.uploadFailed pA.1 pA.2 t tok),
            [Event.httpGet ep, Event.httpPut epA eA r.key_id "private"])
       else
         (some (Err.pubKeyFailed r.status r.text t tok), [Event.httpGet ep])) := by
  by_cases h1 : (w.getResp (pubKeyEndpoint env t)).status = 200
  · by_cases h2 : (w.putResp (secretEndpoint env t (accessKeyName env))
        (w.sealBox (w.getResp (pubKeyEndpoint env t)).key ak)
        (w.getResp (pubKeyEndpoint env t)).key_id "private").1 ∈ [204, 201]
    · by_cases h3 : (w.putResp (secretEndpoint env t (secretKeyName env))
          (w.sealBox (w.getResp (pubKeyEndpoint env t)).key sk)
          (w.getResp (pubKeyEndpoint env t)).key_id "private").1 ∈ [204, 201] <;>
        simp [processTarget, get_pub_key, upload_secret, encrypt, h1, h2, h3]
    · simp [processTarget, get_pub_key, upload_secret, encrypt, h1, h2]
  · simp [processTarget, get_pub_key, upload_secret, encrypt, h1]

/-- Every event of one loop iteration is a public-key GET for that target, an
upload PUT to one of that target's two secret endpoints, or one of the two
confirmation lines for that target. -/
theorem processTarget_event_shape {w : World} {env : Env} {tok ak sk t : String}
    {ev : Event} (h : ev ∈ (processTarget w env tok ak sk t).2) :
    ev = Event.httpGet (pubKeyEndpoint env t) ∨
    (∃ v k, ev = Event.httpPut (secretEndpoint env t (accessKeyName env)) v k "private") ∨
    (∃ v k, ev = Event.httpPut (secretEndpoint env t (secretKeyName env)) v k "private") ∨
    ev = Event.printOut (updatedMsg env (accessKeyName env) t) ∨
    ev = Event.printOut (updatedMsg env (secretKeyName env) t) := by
  simp only [processTarget_cases] at h
  split_ifs at h <;> simp at h <;> aesop

/-- A successful loop iteration performed both uploads for its target. -/
theorem processTarget_success_uploads {w : World} {env : Env}
    {tok ak sk t : String}
    (h : (processTarget w env tok ak sk t).1 = none) :
    receivedUpload env t (accessKeyName env) (processTarget w env tok ak sk t).2 ∧
    receivedUpload env t (secretKeyName env) (processTarget w env tok ak sk t).2 := by
  simp only [processTarget_cases] at h ⊢
  split_ifs at h ⊢
  all_goals simp_all [receivedUpload]
  exact ⟨⟨w.sealBox (w.getResp (pubKeyEndpoint env t)).key ak,
          (w.getResp (pubKeyEndpoint env t)).key_id, "private",
          Or.inl ⟨rfl, rfl, rfl⟩⟩,
         ⟨w.sealBox (w.getResp (pubKeyEndpoint env t)).key sk,
          (w.getResp (pubKeyEndpoint env t)).key_id, "private",
          Or.inr ⟨rfl, rfl, rfl⟩⟩⟩

/-- Every event of the propagation loop belongs to the iteration of one of
the targets of the list. -/
theorem propagate_event_mem {w : World} {env : Env} {tok ak sk : String} :
    ∀ {ts : List String} {ev : Event},
      ev ∈ (propagate w env tok ak sk ts).2 →
      ∃ t ∈ ts, ev ∈ (processTarget w env tok ak sk t).2 := by
  intro ts
  induction ts with
  | nil => intro ev h; simp [propagate] at h
  | cons t ts ih =>
    intro ev h
    rcases hp : (processTarget w env tok ak sk t).1 with _ | e
    · rw [propagate] at h
      rw [hp] at h
      simp at h
      rcases h with h | h
      · exact ⟨t, by simp, h⟩
      · obtain ⟨t', ht', hev⟩ := ih h
        exact ⟨t', by simp [ht'], hev⟩
    · rw [propagate] at h
      rw [hp] at h
      simp at h
      exact ⟨t, by simp, h⟩

/-- Failure analysis of the propagation loop: when the loop fails, the target
list splits into a fully processed prefix, the failing target, and an
untouched suffix, and the loop's trace is exactly the traces of the prefix
iterations (in the order supplied) followed by the failing iteration's
trace. -/
theorem propagate_fail_split {w : World} {env : Env} {tok ak sk : String}
    {ts : List String} {e : Err}
    (h : (propagate w env tok ak sk ts).1 = some e) :
    ∃ pre fail post, ts = pre ++ fail :: post ∧
      (∀ t ∈ pre, (processTarget w env tok ak sk t).1 = none) ∧
      (processTarget w env tok ak sk fail).1 = some e ∧
      (propagate w env tok ak sk ts).2 =
        (pre.map fun t => (processTarget w env tok ak sk t).2).flatten ++
          (processTarget w env tok ak sk fail).2 := by
  induction ts with
  | nil => simp [propagate] at h
  | cons t ts ih =>
    rcases hp : (processTarget w env tok ak sk t).1 with _ | e'
    · have h' : (propagate w env tok ak sk ts).1 = some e := by
        rw [propagate] at h
        rw [hp] at h
        simpa using h
      obtain ⟨pre, fail, post, hts, hpre, hfail, htr⟩ := ih h'
      refine ⟨t :: pre, fail, post, by simp [hts], ?_, hfail, ?_⟩
      · intro t' ht'
        rcases List.mem_cons.mp ht' with rfl | ht'
        · exact hp
        · exact hpre t' ht'
      · rw [propagate]
        rw [hp]
        simp [htr]
    · have he : e' = e := by
        rw [propagate] at h
        rw [hp] at h
        simpa using h
      subst he
      refine ⟨[], t, ts, rfl, by simp, hp, ?_⟩
      rw [propagate]
      rw [hp]
      simp

/-- Success analysis of the propagation loop: when the loop returns no error,
every iteration succeeded and the loop's trace is exactly the concatenation
of the per-target traces in the order supplied. -/
theorem propagate_ok_split {w : World} {env : Env} {tok ak sk : String}
    {ts : List String}
    (h : (propagate w env tok ak sk ts).1 = none) :
    (∀ t ∈ ts, (processTarget w env tok ak sk t).1 = none) ∧
    (propagate w env tok ak sk ts).2 =
      (ts.map fun t => (processTarget w env tok ak sk t).2).flatten := by
  induction ts with
  | nil => simp [propagate]
  | cons t ts ih =>
    rcases hp : (processTarget w env tok ak sk t).1 with _ | e'
    · have h' : (propagate w env tok ak sk ts).1 = none := by
        rw [propagate] at h
        rw [hp] at h
        simpa using h
      obtain ⟨hall, htr⟩ := ih h'
      refine ⟨?_, ?_⟩
      · intro t' ht'
        rcases List.mem_cons.mp ht' with rfl | ht'
        · exact hp
        · exact hall t' ht'
      · rw [propagate]
        rw [hp]
        simp [htr]
    · exfalso
      rw [propagate] at h
      rw [hp] at h
      simp at h

/-- The propagation loop never emits a credential-deletion event. -/
theorem propagate_filter_delete {w : World} {env : Env} {tok ak sk : String}
    {ts : List String} :
    ((propagate w env tok ak sk ts).2).filter isDeleteEv = [] := by
  rw [List.filter_eq_nil_iff]
  intro ev hev
  obtain ⟨t, _, h'⟩ := propagate_event_mem hev
  rcases processTarget_event_shape h' with h | ⟨v, k, h⟩ | ⟨v, k, h⟩ | h | h <;>
    subst h <;> simp [isDeleteEv]

/-- Every stdout line of the propagation loop is an upload confirmation for
one of the supplied targets. -/
theorem propagate_printOut_mem {w : World} {env : Env} {tok ak sk : String}
    {ts : List String} {s : String}
    (h : Event.printOut s ∈ (propagate w env tok ak sk ts).2) :
    ∃ t ∈ ts, s = updatedMsg env (accessKeyName env) t ∨
      s = updatedMsg env (secretKeyName env) t := by
  obtain ⟨t, ht, h'⟩ := propagate_event_mem h
  rcases processTarget_event_shape h' with hs | ⟨v, k, hs⟩ | ⟨v, k, hs⟩ | hs | hs
  · exact absurd hs (by simp)
  · exact absurd hs (by simp)
  · exact absurd hs (by simp)
  · exact ⟨t, ht, Or.inl (by injection hs)⟩
  · exact ⟨t, ht, Or.inr (by injection hs)⟩

/-! ## Run-shape lemmas for the main function -/

/-- When the identity already holds at least two credentials, the run is the
guard diagnostic and nothing else. -/
theorem main_guard_eq (w : World) (env : Env)
    (h : 2 ≤ (w.listKeysPre (resolvedUser w env)).length) :
    main_function w env = (Outcome.exited 1,
      [Event.stsGetCallerIdentity,
       Event.listAccessKeys (resolvedUser w env),
       Event.printOut "There are already 2 keys for this user. Cannot rotate tokens."]) := by
  simp [main_function, h]

/-- When the guard passes but the read-after-write re-list does not contain
the new access id, the run stops right after the verification message. -/
theorem main_rawfail_eq (w : World) (env : Env)
    (h1 : ¬ 2 ≤ (w.listKeysPre (resolvedUser w env)).length)
    (h2 : (w.createKey (resolvedUser w env)).1 ∉
      (w.listKeysPost (resolvedUser w env)).map AccessKeyMeta.AccessKeyId) :
    main_function w env = (Outcome.exited 1,
      [Event.stsGetCallerIdentity,
       Event.listAccessKeys (resolvedUser w env),
       Event.printOut (validatedMsg (w.listKeysPre (resolvedUser w env)).length),
       Event.createAccessKey (resolvedUser w env),
       Event.listAccessKeys (resolvedUser w env),
       Event.printOut "new keys failed to generate."]) := by
  simp [main_function, create_new_keys, h1, h2]

/-- When the guard passes and the re-list confirms the new key, the run is
the mint prefix, the output-file writes, the propagation trace, and then the
retirement step, as a function of the propagation result. -/
theorem main_run_eq (w : World) (env : Env)
    (h1 : ¬ 2 ≤ (w.listKeysPre (resolvedUser w env)).length)
    (h2 : (w.createKey (resolvedUser w env)).1 ∈
      (w.listKeysPost (resolvedUser w env)).map AccessKeyMeta.AccessKeyId) :
    main_function w env =
      (let u := resolvedUser w env
       let pr := propagate w env env.PERSONAL_ACCESS_TOKEN
         (w.createKey u).1 (w.createKey u).2 (parseTargets env.OWNER_REPOSITORY)
       let evs := [Event.stsGetCallerIdentity, Event.listAccessKeys u,
          Event.printOut (validatedMsg (w.listKeysPre u).length),
          Event.createAccessKey u, Event.listAccessKeys u,
          Event.printOut "new keys generated, proceeding",
          Event.writeFile env.GITHUB_OUTPUT
            (accessKeyName env ++ "=" ++ (w.createKey u).1),
          Event.writeFile env.GITHUB_OUTPUT
            (secretKeyName env ++ "=" ++ (w.createKey u).2)] ++ pr.2
       match pr.1 with
       | some e => (Outcome.raised e, evs)
       | none =>
         if (w.listKeysPre u).length = 1 then
           match w.listKeysPre u with
           | [] => (Outcome.crashed "IndexError", evs)
           | m :: _ =>
             if w.deleteKeyStatus u m.AccessKeyId = 200 then
               (Outcome.exited 0, evs ++ [Event.deleteAccessKey u m.AccessKeyId])
             else
               (Outcome.exited 1, evs ++ [Event.deleteAccessKey u m.AccessKeyId,
                  Event.printOut "deletion of original key failed"])
         else (Outcome.exited 0, evs)) := by
  rcases hpr : (propagate w env env.PERSONAL_ACCESS_TOKEN
      (w.createKey (resolvedUser w env)).1 (w.createKey (resolvedUser w env)).2
      (parseTargets env.OWNER_REPOSITORY)).1 with _ | e
  · by_cases hlen : (w.listKeysPre (resolvedUser w env)).length = 1
    · rcases hls : w.listKeysPre (resolvedUser w env) with _ | ⟨m, rest⟩
      · rw [hls] at hlen
        simp at hlen
      · rw [hls] at hlen
        have hrest : rest = [] := by simpa using hlen
        subst hrest
        by_cases hd : w.deleteKeyStatus (resolvedUser w env) m.AccessKeyId = 200 <;>
          simp [main_function, create_new_keys, delete_old_keys,
            h2, hpr, hls, hd]
    · simp [main_function, create_new_keys, h1, h2, hpr, hlen]
  · simp [main_function, create_new_keys, h1, h2, hpr]

/-! ## Claim theorems -/

/-- C1: whenever the pre-existing credential count for the identity is at
least 2, the job prints the guard diagnostic and exits with status 1, and
its trace contains no credential creation, no credential deletion, no
public-key fetch, no secret upload, and no output-file write. -/
theorem guard_blocks_rotation (w : World) (env : Env)
    (h : 2 ≤ (w.listKeysPre (resolvedUser w env)).length) :
    (main_function w env).1 = Outcome.exited 1 ∧
    Event.printOut "There are already 2 keys for this user. Cannot rotate tokens."
      ∈ (main_function w env).2 ∧
    (∀ u, Event.createAccessKey u ∉ (main_function w env).2) ∧
    (∀ u k, Event.deleteAccessKey u k ∉ (main_function w env).2) ∧
    (∀ ep, Event.httpGet ep ∉ (main_function w env).2) ∧
    (∀ ep v k vis, Event.httpPut ep v k vis ∉ (main_function w env).2) ∧
    (∀ p l, Event.writeFile p l ∉ (main_function w env).2) := by
  rw [main_guard_eq w env h]
  simp

/-- Witness for the C1 theorem at a world with two pre-existing keys. -/
theorem guard_blocks_rotation_witness :
    2 ≤ (wGuard.listKeysPre (resolvedUser wGuard envBase)).length ∧
    (main_function wGuard envBase).1 = Outcome.exited 1 :=
  ⟨by decide, (guard_blocks_rotation wGuard envBase (by decide)).1⟩

/-- C2: whenever the newly created access identifier is absent from the
read-after-write re-list, the job exits with status 1 and its trace contains
no public-key fetch, no secret upload, and no credential deletion. -/
theorem raw_check_failure_blocks (w : World) (env : Env)
    (h1 : ¬ 2 ≤ (w.listKeysPre (resolvedUser w env)).length)
    (h2 : (w.createKey (resolvedUser w env)).1 ∉
      (w.listKeysPost (resolvedUser w env)).map AccessKeyMeta.AccessKeyId) :
    (main_function w env).1 = Outcome.exited 1 ∧
    (∀ ep, Event.httpGet ep ∉ (main_function w env).2) ∧
    (∀ ep v k vis, Event.httpPut ep v k vis ∉ (main_function w env).2) ∧
    (∀ u k, Event.deleteAccessKey u k ∉ (main_function w env).2) := by
  rw [main_rawfail_eq w env h1 h2]
  simp

/-- Witness for the C2 theorem at a world whose re-list misses the new key. -/
theorem raw_check_failure_blocks_witness :
    ¬ 2 ≤ (wRaw.listKeysPre (resolvedUser wRaw envBase)).length ∧
    (wRaw.createKey (resolvedUser wRaw envBase)).1 ∉
      (wRaw.listKeysPost (resolvedUser wRaw envBase)).map AccessKeyMeta.AccessKeyId ∧
    (main_function wRaw envBase).1 = Outcome.exited 1 :=
  ⟨by decide, by decide,
   (raw_check_failure_blocks wRaw envBase (by decide) (by decide)).1⟩

/-- C3: in a run that passes the guard and the read-after-write check and
whose propagation succeeds on all targets, the deletion events of the trace
are exactly one deletion per pre-existing credential (one when the
pre-count was 1, none when it was 0), the deleted identifier being the one
listed before minting, and the exit status is 0 exactly when every delete
response status is 200 and 1 otherwise. -/
theorem retirement_exact (w : World) (env : Env)
    (h1 : (w.listKeysPre (resolvedUser w env)).length ≤ 1)
    (h2 : (w.createKey (resolvedUser w env)).1 ∈
      (w.listKeysPost (resolvedUser w env)).map AccessKeyMeta.AccessKeyId)
    (h3 : (propagate w env env.PERSONAL_ACCESS_TOKEN
      (w.createKey (resolvedUser w env)).1 (w.createKey (resolvedUser w env)).2
      (parseTargets env.OWNER_REPOSITORY)).1 = none) :
    ((main_function w env).2).filter isDeleteEv =
      (w.listKeysPre (resolvedUser w env)).map
        (fun m => Event.deleteAccessKey (resolvedUser w env) m.AccessKeyId) ∧
    (main_function w env).1 =
      (if (w.listKeysPre (resolvedUser w env)).all
          (fun m => w.deleteKeyStatus (resolvedUser w env) m.AccessKeyId == 200)
       then Outcome.exited 0 else Outcome.exited 1) := by
  have h1' : ¬ 2 ≤ (w.listKeysPre (resolvedUser w env)).length := by omega
  rw [main_run_eq w env h1' h2]
  rcases hls : w.listKeysPre (resolvedUser w env) with _ | ⟨m, rest⟩
  · simp [h3, hls, propagate_filter_delete, isDeleteEv]
  · rw [hls] at h1
    have hrest : rest = [] := by simpa using h1
    subst hrest
    by_cases hd : w.deleteKeyStatus (resolvedUser w env) m.AccessKeyId = 200 <;>
      simp [h3, hls, hd, propagate_filter_delete, isDeleteEv]

/-- Witness for the C3 theorem at a world with one pre-existing key and all
calls succeeding. -/
theorem retirement_exact_witness :
    (wBase.listKeysPre (resolvedUser wBase envBase)).length ≤ 1 ∧
    ((main_function wBase envBase).2).filter isDeleteEv =
      (wBase.listKeysPre (resolvedUser wBase envBase)).map
        (fun m => Event.deleteAccessKey (resolvedUser wBase envBase) m.AccessKeyId) :=
  ⟨by decide,
   (retirement_exact wBase envBase (by decide) (by decide) (by decide)).1⟩

/-- C4: when the propagation loop fails, the target list splits into a fully
updated prefix (each of whose targets, processed in the order supplied,
received both secret uploads), the failing target, and an untouched suffix:
the loop's whole trace consists of the prefix iterations' traces followed by
the failing iteration's trace, so no later target is ever contacted. -/
theorem propagation_prefix_on_failure (w : World) (env : Env)
    (tok ak sk : String) (ts : List String) (e : Err)
    (h : (propagate w env tok ak sk ts).1 = some e) :
    ∃ pre fail post, ts = pre ++ fail :: post ∧
      (∀ t ∈ pre, (processTarget w env tok ak sk t).1 = none ∧
        receivedUpload env t (accessKeyName env) (propagate w env tok ak sk ts).2 ∧
        receivedUpload env t (secretKeyName env) (propagate w env tok ak sk ts).2) ∧
      (processTarget w env tok ak sk fail).1 = some e ∧
      (propagate w env tok ak sk ts).2 =
        (pre.map fun t => (processTarget w env tok ak sk t).2).flatten ++
          (processTarget w env tok ak sk fail).2 := by
  obtain ⟨pre, fail, post, hts, hpre, hfail, htr⟩ := propagate_fail_split h
  refine ⟨pre, fail, post, hts, ?_, hfail, htr⟩
  intro t ht
  have hsub : ∀ ev ∈ (processTarget w env tok ak sk t).2,
      ev ∈ (propagate w env tok ak sk ts).2 := by
    intro ev hev
    rw [htr]
    exact List.mem_append_left _
      (List.mem_flatten.mpr ⟨_, List.mem_map_of_mem _ ht, hev⟩)
  obtain ⟨⟨vA, kA, visA, hA⟩, ⟨vS, kS, visS, hS⟩⟩ :=
    processTarget_success_uploads (hpre t ht)
  exact ⟨hpre t ht, ⟨vA, kA, visA, hsub _ hA⟩, ⟨vS, kS, visS, hsub _ hS⟩⟩

/-- Witness for the C4 theorem: three targets, the second one failing its
public-key fetch. -/
theorem propagation_prefix_on_failure_witness :
    (propagate wFail envMulti "ghp_tok" "AKIA_NEW" "TOPSECRETVALUE"
      (parseTargets "a/b,c/d,e/f")).1 =
      some (Err.pubKeyFailed 404 "not found" "c/d" "ghp_tok") ∧
    ∃ pre fail post, parseTargets "a/b,c/d,e/f" = pre ++ fail :: post ∧
      (∀ t ∈ pre,
        (processTarget wFail envMulti "ghp_tok" "AKIA_NEW" "TOPSECRETVALUE" t).1 = none ∧
        receivedUpload envMulti t (accessKeyName envMulti)
          (propagate wFail envMulti "ghp_tok" "AKIA_NEW" "TOPSECRETVALUE"
            (parseTargets "a/b,c/d,e/f")).2 ∧
        receivedUpload envMulti t (secretKeyName envMulti)
          (propagate wFail envMulti "ghp_tok" "AKIA_NEW" "TOPSECRETVALUE"
            (parseTargets "a/b,c/d,e/f")).2) ∧
      (processTarget wFail envMulti "ghp_tok" "AKIA_NEW" "TOPSECRETVALUE" fail).1 =
        some (Err.pubKeyFailed 404 "not found" "c/d" "ghp_tok") ∧
      (propagate wFail envMulti "ghp_tok" "AKIA_NEW" "TOPSECRETVALUE"
        (parseTargets "a/b,c/d,e/f")).2 =
        (pre.map fun t =>
          (processTarget wFail envMulti "ghp_tok" "AKIA_NEW" "TOPSECRETVALUE" t).2).flatten ++
          (processTarget wFail envMulti "ghp_tok" "AKIA_NEW" "TOPSECRETVALUE" fail).2 :=
  ⟨by decide,
   propagation_prefix_on_failure wFail envMulti "ghp_tok" "AKIA_NEW" "TOPSECRETVALUE"
     (parseTargets "a/b,c/d,e/f") _ (by decide)⟩

/-- C5 counterexample: with environment scope `prod` and target `o/r`, the
public-key endpoint the code builds is not the spec's environment-scoped
variant (environment segment inserted before the `/actions/secrets`
suffix): the code drops the `actions` segment altogether. -/
theorem env_endpoint_differs_from_spec :
    pubKeyEndpoint envProd "o/r" ≠ specEnvPubKeyEndpoint "o/r" "prod" ∧
    specEnvPubKeyEndpoint "o/r" "prod" =
      "https://api.github.com/repos/o/r/environments/prod/actions/secrets/public-key" ∧
    pubKeyEndpoint envProd "o/r" =
      "https://api.github.com/repos/o/r/environments/prod/secrets/public-key" := by
  refine ⟨by decide, by decide, by decide⟩

/-- C5 amended: the API path segment is `repos` when the target contains a
slash and `orgs` otherwise; with a non-empty environment override both the
public-key fetch and the upload use the environment-scoped endpoints
`.../{target}/environments/{env}/secrets/...`, in which the `actions`
segment of the default endpoints is dropped. -/
theorem endpoint_shape (env : Env) (t name e : String)
    (he : env.GITHUB_ENVIRONMENT = some e) (hne : e ≠ "") :
    endpoint_path t = (if containsChar t '/' then "repos" else "orgs") ∧
    pubKeyEndpoint env t =
      "https://api.github.com/" ++ endpoint_path t ++ "/" ++ t ++
        "/environments/" ++ e ++ "/secrets/public-key" ∧
    secretEndpoint env t name =
      "https://api.github.com/" ++ endpoint_path t ++ "/" ++ t ++
        "/environments/" ++ e ++ "/secrets/" ++ name := by
  refine ⟨rfl, ?_, ?_⟩ <;> simp [pubKeyEndpoint, secretEndpoint, envScope, he, hne]

/-- Witness for the C5 amended theorem at scope `prod`, target `o/r`. -/
theorem endpoint_shape_witness :
    envProd.GITHUB_ENVIRONMENT = some "prod" ∧ "prod" ≠ "" ∧
    pubKeyEndpoint envProd "o/r" =
      "https://api.github.com/" ++ endpoint_path "o/r" ++ "/" ++ "o/r" ++
        "/environments/" ++ "prod" ++ "/secrets/public-key" :=
  ⟨rfl, by decide,
   (endpoint_shape envProd "o/r" "access_key_id" "prod" rfl (by decide)).2.1⟩

/-- C6: the upload treats exactly the statuses 201 and 204 as success and
any other status yields the error carrying that status and the response
body (and the target and token); the public-key fetch likewise errors on
any status other than 200 with status and body attached; and a propagation
error is never caught: it surfaces verbatim as the run's raised outcome. -/
theorem http_status_contract (w : World) (env : Env) (t name v kid tok : String) :
    (upload_secret w env t name v kid tok).1 =
      (if (w.putResp (secretEndpoint env t name) v kid "private").1 ∈ [204, 201]
       then none
       else some (Err.uploadFailed
         (w.putResp (secretEndpoint env t name) v kid "private").1
         (w.putResp (secretEndpoint env t name) v kid "private").2 t tok)) ∧
    (get_pub_key w env t tok).1 =
      (if (w.getResp (pubKeyEndpoint env t)).status = 200
       then Except.ok ((w.getResp (pubKeyEndpoint env t)).key,
         (w.getResp (pubKeyEndpoint env t)).key_id)
       else Except.error (Err.pubKeyFailed
         (w.getResp (pubKeyEndpoint env t)).status
         (w.getResp (pubKeyEndpoint env t)).text t tok)) ∧
    (∀ e, ¬ 2 ≤ (w.listKeysPre (resolvedUser w env)).length →
      (w.createKey (resolvedUser w env)).1 ∈
        (w.listKeysPost (resolvedUser w env)).map AccessKeyMeta.AccessKeyId →
      (propagate w env env.PERSONAL_ACCESS_TOKEN
        (w.createKey (resolvedUser w env)).1 (w.createKey (resolvedUser w env)).2
        (parseTargets env.OWNER_REPOSITORY)).1 = some e →
      (main_function w env).1 = Outcome.raised e) := by
  refine ⟨?_, ?_, ?_⟩
  · by_cases hc : (w.putResp (secretEndpoint env t name) v kid "private").1 ∈ [204, 201] <;>
      simp [upload_secret, hc]
  · by_cases hc : (w.getResp (pubKeyEndpoint env t)).status = 200 <;>
      simp [get_pub_key, hc]
  · intro e h1 h2 h3
    rw [main_run_eq w env h1 h2]
    simp [h3]

/-- Witness for the C6 theorem: a failed public-key fetch surfaces as the
raised outcome of the whole run. -/
theorem http_status_contract_witness :
    ¬ 2 ≤ (wFail.listKeysPre (resolvedUser wFail envMulti)).length ∧
    (main_function wFail envMulti).1 =
      Outcome.raised (Err.pubKeyFailed 404 "not found" "c/d" "ghp_tok") :=
  ⟨by decide,
   (http_status_contract wFail envMulti "c/d" "n" "v" "k" "tok").2.2
     (Err.pubKeyFailed 404 "not found" "c/d" "ghp_tok")
     (by decide) (by decide) (by decide)⟩

/-- C7 (code bug): even with the explicit override `IAM_USERNAME=svc-bot`
set, the run still issues the STS introspection call as its very first
external action — `os.environ.get('IAM_USERNAME', who_am_i())` evaluates
its default eagerly — although the override (and not the introspected name
`other-user`) is what every IAM operation uses. -/
theorem override_still_queries_introspection :
    envOv.IAM_USERNAME = some "svc-bot" ∧
    who_am_i wOv = "other-user" ∧
    (main_function wOv envOv).2.head? = some Event.stsGetCallerIdentity ∧
    Event.listAccessKeys "svc-bot" ∈ (main_function wOv envOv).2 ∧
    Event.listAccessKeys "other-user" ∉ (main_function wOv envOv).2 := by
  refine ⟨rfl, by decide, by decide, by decide, by decide⟩

/-- Classification of every event of a run that passes the guard and the
read-after-write check: the mint prefix, the output-file writes, an event of
the propagation loop, or the retirement step. -/
theorem main_event_cases (w : World) (env : Env)
    (h1 : ¬ 2 ≤ (w.listKeysPre (resolvedUser w env)).length)
    (h2 : (w.createKey (resolvedUser w env)).1 ∈
      (w.listKeysPost (resolvedUser w env)).map AccessKeyMeta.AccessKeyId)
    {ev : Event} (h : ev ∈ (main_function w env).2) :
    ev = Event.stsGetCallerIdentity ∨
    ev = Event.listAccessKeys (resolvedUser w env) ∨
    ev = Event.printOut (validatedMsg (w.listKeysPre (resolvedUser w env)).length) ∨
    ev = Event.createAccessKey (resolvedUser w env) ∨
    ev = Event.printOut "new keys generated, proceeding" ∨
    ev = Event.writeFile env.GITHUB_OUTPUT
      (accessKeyName env ++ "=" ++ (w.createKey (resolvedUser w env)).1) ∨
    ev = Event.writeFile env.GITHUB_OUTPUT
      (secretKeyName env ++ "=" ++ (w.createKey (resolvedUser w env)).2) ∨
    ev ∈ (propagate w env env.PERSONAL_ACCESS_TOKEN
      (w.createKey (resolvedUser w env)).1 (w.createKey (resolvedUser w env)).2
      (parseTargets env.OWNER_REPOSITORY)).2 ∨
    (∃ m, w.listKeysPre (resolvedUser w env) = [m] ∧
      ev = Event.deleteAccessKey (resolvedUser w env) m.AccessKeyId) ∨
    ev = Event.printOut "deletion of original key failed" := by
  rw [main_run_eq w env h1 h2] at h
  rcases hpr : (propagate w env env.PERSONAL_ACCESS_TOKEN
      (w.createKey (resolvedUser w env)).1 (w.createKey (resolvedUser w env)).2
      (parseTargets env.OWNER_REPOSITORY)).1 with _ | e
  · by_cases hlen : (w.listKeysPre (resolvedUser w env)).length = 1
    · rcases hls : w.listKeysPre (resolvedUser w env) with _ | ⟨m, rest⟩
      · rw [hls] at hlen
        simp at hlen
      · rw [hls] at hlen
        have hrest : rest = [] := by simpa using hlen
        subst hrest
        simp only [hpr] at h
        rw [hls] at h
        by_cases hd : w.deleteKeyStatus (resolvedUser w env) m.AccessKeyId = 200
        all_goals (
          simp [hd] at h
          by_cases hevd : ev = Event.deleteAccessKey (resolvedUser w env) m.AccessKeyId
          · exact Or.inr (Or.inr (Or.inr (Or.inr (Or.inr (Or.inr (Or.inr
              (Or.inr (Or.inl ⟨m, rfl, hevd⟩))))))))
          · simp [hevd] at h
            tauto)
    · simp [hpr, hlen] at h
      tauto
  · simp [hpr] at h
    tauto

/-- C8 counterexample: the minted secret-value is written to disk: the run
appends `secret_key_id=TOPSECRETVALUE` to the output file `out.txt`
(lines 50-52 of the source), refuting the never-written-to-disk claim. -/
theorem secret_value_written_to_disk :
    wBase.createKey (resolvedUser wBase envBase) = ("AKIA_NEW", "TOPSECRETVALUE") ∧
    Event.writeFile "out.txt" "secret_key_id=TOPSECRETVALUE"
      ∈ (main_function wBase envBase).2 :=
  ⟨by decide, by decide⟩

/-- C8 amended: the minted secret-value does reach disk, but only as the
`name=value` lines appended to the designated output file; every line the
job prints to standard output is one of the fixed progress/diagnostic forms
(parameterized only by the pre-existing key count, the configured secret
names and the targets), none of which is built from the minted
secret-value. -/
theorem stdout_and_disk_discipline (w : World) (env : Env) :
    (∀ s, Event.printOut s ∈ (main_function w env).2 →
      benignStdout env (w.listKeysPre (resolvedUser w env)).length s) ∧
    (∀ p l, Event.writeFile p l ∈ (main_function w env).2 →
      p = env.GITHUB_OUTPUT ∧
        (l = accessKeyName env ++ "=" ++ (w.createKey (resolvedUser w env)).1 ∨
         l = secretKeyName env ++ "=" ++ (w.createKey (resolvedUser w env)).2)) := by
  by_cases hg : 2 ≤ (w.listKeysPre (resolvedUser w env)).length
  · rw [main_guard_eq w env hg]
    constructor
    · intro s hs
      simp at hs
      exact Or.inl hs
    · intro p l hl
      simp at hl
  · by_cases hr : (w.createKey (resolvedUser w env)).1 ∈
        (w.listKeysPost (resolvedUser w env)).map AccessKeyMeta.AccessKeyId
    · constructor
      · intro s hs
        rcases main_event_cases w env hg hr hs with
          h | h | h | h | h | h | h | h | ⟨m, hm, h⟩ | h
        · exact absurd h (by simp)
        · exact absurd h (by simp)
        · exact Or.inr (Or.inl (Event.printOut.inj h))
        · exact absurd h (by simp)
        · exact Or.inr (Or.inr (Or.inr (Or.inl (Event.printOut.inj h))))
        · exact absurd h (by simp)
        · exact absurd h (by simp)
        · obtain ⟨t, ht, hc⟩ := propagate_printOut_mem h
          exact Or.inr (Or.inr (Or.inr (Or.inr (Or.inr ⟨t, ht, hc⟩))))
        · exact absurd h (by simp)
        · exact Or.inr (Or.inr (Or.inr (Or.inr (Or.inl (Event.printOut.inj h)))))
      · intro p l hl
        rcases main_event_cases w env hg hr hl with
          h | h | h | h | h | h | h | h | ⟨m, hm, h⟩ | h
        · exact absurd h (by simp)
        · exact absurd h (by simp)
        · exact absurd h (by simp)
        · exact absurd h (by simp)
        · exact absurd h (by simp)
        · exact ⟨(Event.writeFile.inj h).1, Or.inl (Event.writeFile.inj h).2⟩
        · exact ⟨(Event.writeFile.inj h).1, Or.inr (Event.writeFile.inj h).2⟩
        · obtain ⟨t, ht, h'⟩ := propagate_event_mem h
          rcases processTarget_event_shape h' with
            hs | ⟨v, k, hs⟩ | ⟨v, k, hs⟩ | hs | hs <;> exact absurd hs (by simp)
        · exact absurd h (by simp)
        · exact absurd h (by simp)
    · rw [main_rawfail_eq w env hg hr]
      constructor
      · intro s hs
        simp at hs
        rcases hs with hs | hs
        · exact Or.inr (Or.inl hs)
        · exact Or.inr (Or.inr (Or.inl hs))
      · intro p l hl
        simp at hl

/-- Witness for the C8 amended theorem. -/
theorem stdout_and_disk_discipline_witness :
    Event.printOut "new keys generated, proceeding" ∈ (main_function wBase envBase).2 ∧
    benignStdout envBase (wBase.listKeysPre (resolvedUser wBase envBase)).length
      "new keys generated, proceeding" :=
  ⟨by decide, (stdout_and_disk_discipline wBase envBase).1 _ (by decide)⟩

/-- C9: no run ever ends in the uncaught `IndexError` of the
`AccessKeyMetadata[0]` subscript — it is evaluated only under the
`starting_num_keys == 1` guard, under which the pre-mint list is a
singleton — and every deletion event of any run names the resolved identity
and an identifier listed before minting. -/
theorem delete_guarded_and_in_bounds (w : World) (env : Env) :
    (∀ msg, (main_function w env).1 ≠ Outcome.crashed msg) ∧
    (∀ u kid, Event.deleteAccessKey u kid ∈ (main_function w env).2 →
      u = resolvedUser w env ∧
      (w.listKeysPre (resolvedUser w env)).length = 1 ∧
      kid ∈ (w.listKeysPre (resolvedUser w env)).map AccessKeyMeta.AccessKeyId) := by
  constructor
  · intro msg
    by_cases hg : 2 ≤ (w.listKeysPre (resolvedUser w env)).length
    · rw [main_guard_eq w env hg]
      simp
    · by_cases hr : (w.createKey (resolvedUser w env)).1 ∈
          (w.listKeysPost (resolvedUser w env)).map AccessKeyMeta.AccessKeyId
      · rw [main_run_eq w env hg hr]
        rcases hpr : (propagate w env env.PERSONAL_ACCESS_TOKEN
            (w.createKey (resolvedUser w env)).1 (w.createKey (resolvedUser w env)).2
            (parseTargets env.OWNER_REPOSITORY)).1 with _ | e
        · simp only [hpr]
          by_cases hlen : (w.listKeysPre (resolvedUser w env)).length = 1
          · rcases hls : w.listKeysPre (resolvedUser w env) with _ | ⟨m, rest⟩
            · rw [hls] at hlen
              simp at hlen
            · rw [hls] at hlen
              have hrest : rest = [] := by simpa using hlen
              subst hrest
              by_cases hd : w.deleteKeyStatus (resolvedUser w env) m.AccessKeyId = 200 <;>
                simp [hd]
          · simp [hlen]
        · simp [hpr]
      · rw [main_rawfail_eq w env hg hr]
        simp
  · intro u kid h
    by_cases hg : 2 ≤ (w.listKeysPre (resolvedUser w env)).length
    · rw [main_guard_eq w env hg] at h
      simp at h
    · by_cases hr : (w.createKey (resolvedUser w env)).1 ∈
          (w.listKeysPost (resolvedUser w env)).map AccessKeyMeta.AccessKeyId
      · rcases main_event_cases w env hg hr h with
          hc | hc | hc | hc | hc | hc | hc | hc | ⟨m, hm, hc⟩ | hc
        · exact absurd hc (by simp)
        · exact absurd hc (by simp)
        · exact absurd hc (by simp)
        · exact absurd hc (by simp)
        · exact absurd hc (by simp)
        · exact absurd hc (by simp)
        · exact absurd hc (by simp)
        · obtain ⟨t, ht, h'⟩ := propagate_event_mem hc
          rcases processTarget_event_shape h' with
            hs | ⟨v, k, hs⟩ | ⟨v, k, hs⟩ | hs | hs <;> exact absurd hs (by simp)
        · refine ⟨(Event.deleteAccessKey.inj hc).1, ?_, ?_⟩
          · rw [hm]
            rfl
          · rw [hm]
            simp [(Event.deleteAccessKey.inj hc).2]
        · exact absurd hc (by simp)
      · rw [main_rawfail_eq w env hg hr] at h
        simp at h

/-- Witness for the C9 theorem at a world that deletes `AKIA_OLD`. -/
theorem delete_guarded_and_in_bounds_witness :
    Event.deleteAccessKey "svc-bot" "AKIA_OLD" ∈ (main_function wBase envBase).2 ∧
    "AKIA_OLD" ∈ (wBase.listKeysPre (resolvedUser wBase envBase)).map
      AccessKeyMeta.AccessKeyId :=
  ⟨by decide,
   ((delete_guarded_and_in_bounds wBase envBase).2 "svc-bot" "AKIA_OLD" (by decide)).2.2⟩

/-- C10: for every propagation target, the trace of its loop iteration
contains exactly one public-key fetch, and its full enumeration shows that
both uploaded payloads are sealed with the `key` field returned by that one
fetch, that both uploads carry the `key_id` of that same fetch, and that
the access-key upload precedes the secret-key upload. -/
theorem per_target_seal_discipline (w : World) (env : Env) (tok ak sk t : String) :
    ((processTarget w env tok ak sk t).2).countP isGetEv = 1 ∧
    processTarget w env tok ak sk t =
      (let ep := pubKeyEndpoint env t
       let r := w.getResp ep
       let eA := w.sealBox r.key ak
       let eS := w.sealBox r.key sk
       let epA := secretEndpoint env t (accessKeyName env)
       let epS := secretEndpoint env t (secretKeyName env)
       let pA := w.putResp epA eA r.key_id "private"
       let pS := w.putResp epS eS r.key_id "private"
       if r.status = 200 then
         if pA.1 ∈ [204, 201] then
           if pS.1 ∈ [204, 201] then
             (none,
              [Event.httpGet ep, Event.httpPut epA eA r.key_id "private",
               Event.printOut (updatedMsg env (accessKeyName env) t),
               Event.httpPut epS eS r.key_id "private",
               Event.printOut (updatedMsg env (secretKeyName env) t)])
           else
             (some (Err.uploadFailed pS.1 pS.2 t tok),
              [Event.httpGet ep, Event.httpPut epA eA r.key_id "private",
               Event.printOut (updatedMsg env (accessKeyName env) t),
               Event.httpPut epS eS r.key_id "private"])
         else
           (some (Err.uploadFailed pA.1 pA.2 t tok),
            [Event.httpGet ep, Event.httpPut epA eA r.key_id "private"])
       else
         (some (Err.pubKeyFailed r.status r.text t tok), [Event.httpGet ep])) := by
  constructor
  · simp only [processTarget_cases]
    split_ifs <;> simp [isGetEv]
  · exact processTarget_cases w env tok ak sk t
